import Mathlib

/-!
Verification development for the marine-mentors backend.

The repository contains three source variants of the same Express server:
  * the richer variant (`src/unnamed/part_000`, second document): field
    validation on register/login, `is_active` filters, 24h-expiring tokens,
    a profile endpoint, an admin listing and a `GET *` catch-all;
  * the middle variant (`src/unnamed/part_000`, first document): no field
    validation, no `is_active` filters, tokens without email or expiry, a
    five-column INSERT, and a `GET *` catch-all listing five routes;
  * the minimal variant (`src/server.js`): no validation, no expiry, only
    health/register/login/courses and no catch-all.

External collaborators (the SQL store, bcryptjs, jsonwebtoken) are embedded
as concrete semantic models:
  * the store is a `Db` value; each `pool.query` call may instead raise,
    driven by an explicit fault schedule (`List Bool`, one flag per query in
    program order), which models "the query raises an error";
  * `bcrypt.hash`/`bcrypt.compare` use a collision-free symbolic digest;
  * signed token strings are represented by the abstract `Jwt` values they
    denote, with `jwt.sign`/`jwt.verify` keeping the payload/secret/expiry
    behaviour of the library.
JSON response bodies are transcribed literally from the `res.json({...})`
literals of the source (JS `undefined` values disappear on serialisation,
so conditionally-`undefined` keys are omitted when the condition is false).
Timestamps are modelled as natural-number seconds.
-/

namespace MarineMentors

/-- Model of the signed-token payload: `{ userId, email }` in the richer
variant, `{ userId }` (no email) in the minimal variant. -/
structure JwtPayload where
  userId : Nat
  email : Option String
deriving DecidableEq, Repr

/-- Model of a signed token string: the data the string encodes.
`expSec` is the `expiresIn` duration in seconds (`none`: token never
expires, as when the minimal variant calls `jwt.sign` without options). -/
structure Jwt where
  payload : JwtPayload
  iat : Nat
  expSec : Option Nat
  secret : String
deriving DecidableEq, Repr

namespace jwt

/-- `jwt.sign(payload, secret, { expiresIn })` at current time `now`. -/
def sign (p : JwtPayload) (secret : String) (expSec : Option Nat) (now : Nat) : Jwt :=
  { payload := p, iat := now, expSec := expSec, secret := secret }

inductive VerifyError where
  | badSignature
  | expired
deriving DecidableEq, Repr

/-- `jwt.verify(token, secret)` at current time `now`: checks the signature
(secret match) and, when the token carries an expiry, that it has not yet
passed (`jsonwebtoken` rejects once the clock reaches `iat + expiresIn`). -/
def verify (t : Jwt) (secret : String) (now : Nat) : Except VerifyError JwtPayload :=
  if t.secret ≠ secret then .error .badSignature
  else match t.expSec with
    | none => .ok t.payload
    | some e => if t.iat + e ≤ now then .error .expired else .ok t.payload

end jwt

namespace bcrypt

/-- `bcrypt.hash(password, cost)`: collision-free symbolic digest. -/
def hash (password : String) (cost : Nat) : String :=
  "bcrypt$" ++ toString cost ++ "$" ++ password

/-- `bcrypt.compare(password, digest)`: succeeds exactly when `digest` was
produced by hashing `password` at the work factor this app uses. -/
def compare (password digest : String) : Bool :=
  digest == hash password 10

end bcrypt

/-- `process.env.JWT_SECRET`, or the insecure hardcoded fallback secret
when the environment variable is unset (as modelled here). -/
def JWT_SECRET : String := "marine_mentors_secret_2025"

/-- A row of the `users` table.  Nullable text columns are `Option String`;
`registration_date` is `none` when the column was left to its default. -/
structure UserRow where
  id : Nat
  full_name : Option String
  email : Option String
  phone : Option String
  class_level : Option String
  password_hash : String
  registration_date : Option Nat
  is_active : Bool
  trial_used : Bool
deriving DecidableEq, Repr

/-- A row of the `courses` table (descriptive columns beyond `is_active`
are unspecified by the code; `title` stands for them). -/
structure CourseRow where
  id : Nat
  title : String
  is_active : Bool
deriving DecidableEq, Repr

/-- Column defaults of the `users` table, applied by the store when an
INSERT does not mention a column.  The table DDL is not in the repository,
so the defaults are part of the store state. -/
structure ColumnDefaults where
  is_active : Bool
  trial_used : Bool
  registration_date : Option Nat
deriving DecidableEq, Repr

/-- The relational store: both tables, the next serial user id, and the
`users` column defaults. -/
structure Db where
  users : List UserRow
  courses : List CourseRow
  nextId : Nat
  defaults : ColumnDefaults
deriving DecidableEq, Repr

/-- Fault schedule lookup: `qfail faults i = true` means the `i`-th query
executed by the handler (in program order) raises a store error. -/
def qfail (faults : List Bool) (i : Nat) : Bool :=
  faults.getD i false

/-- The `error.message` of a raised store error (fixed in the model). -/
def dbErrMsg : String := "query failed"

/-- The `error.message` of a bcryptjs rejection on undefined input (fixed
in the model). -/
def bcryptErrMsg : String := "Illegal arguments"

/-- SQL `email = $1` with a possibly-NULL column and possibly-undefined
parameter: never true against NULL. -/
def emailEq (u : UserRow) (e : Option String) : Bool :=
  match e, u.email with
  | some a, some b => a == b
  | _, _ => false

/-- JS falsiness of a request-body field that is either absent
(`undefined`) or a string: absent and `""` are falsy. -/
def falsy : Option String → Bool
  | none => true
  | some s => s.isEmpty

/-- JSON atoms.  `tok` is a signed token string (see `Jwt`). -/
inductive JAtom where
  | str (s : String)
  | num (n : Nat)
  | bool (b : Bool)
  | tok (t : Jwt)
  | null
deriving DecidableEq, Repr

/-- A flat JSON object (association list of atoms). -/
abbrev JFlat := List (String × JAtom)

/-- A JSON value as it appears in the responses of this server: an atom, a flat
object, an array of flat objects, or an array of strings. -/
inductive JVal where
  | atom (a : JAtom)
  | obj (o : JFlat)
  | arrObj (rows : List JFlat)
  | arrStr (ss : List String)
deriving DecidableEq, Repr

/-- A top-level JSON response object. -/
abbrev JObj := List (String × JVal)

/-- A response body: JSON from `res.json`, or the HTML page Express
produces itself for a request no route matched. -/
inductive RBody where
  | json (o : JObj)
  | html (s : String)
deriving DecidableEq, Repr

/-- An HTTP response: status code and body. -/
structure Response where
  status : Nat
  body : RBody
deriving DecidableEq, Repr

/-- JS `s.startsWith(pre)` (spelled out character-wise so that proofs can
evaluate it). -/
def jsStartsWith (s pre : String) : Bool :=
  pre.data.isPrefixOf s.data

/-- A possibly-NULL text column as a JSON value. -/
def jstr : Option String → JAtom
  | none => .null
  | some s => .str s

/-- A possibly-NULL timestamp column as a JSON value. -/
def jdate : Option Nat → JAtom
  | none => .null
  | some n => .num n

/-- The fields destructured from `req.body` by the register and login
handlers; a missing field is `none` (JS `undefined`). -/
structure ReqBody where
  fullName : Option String
  email : Option String
  phone : Option String
  classLevel : Option String
  password : Option String
deriving DecidableEq, Repr

/-! ## Richer variant (`src/unnamed/part_000`, second document) -/

/-- `POST /api/auth/register` (richer variant, lines 254-330).
Queries in order: 0 = existence check, 1 = INSERT. -/
def registerRich (db : Db) (now : Nat) (b : ReqBody) (faults : List Bool) :
    Response × Db :=
  if falsy b.fullName || falsy b.email || falsy b.phone ||
      falsy b.classLevel || falsy b.password then
    ({ status := 400,
       body := .json [("success", .atom (.bool false)),
         ("error", .atom (.str
           "All fields are required (fullName, email, phone, classLevel, password)"))] },
     db)
  else if qfail faults 0 then
    ({ status := 500,
       body := .json [("success", .atom (.bool false)),
         ("error", .atom (.str ("Registration failed: " ++ dbErrMsg)))] },
     db)
  else if (db.users.filter (fun u => emailEq u b.email)).length > 0 then
    ({ status := 400,
       body := .json [("success", .atom (.bool false)),
         ("error", .atom (.str "User already exists with this email"))] },
     db)
  else if qfail faults 1 then
    ({ status := 500,
       body := .json [("success", .atom (.bool false)),
         ("error", .atom (.str ("Registration failed: " ++ dbErrMsg)))] },
     db)
  else
    let passwordHash := bcrypt.hash (b.password.getD "") 10
    let row : UserRow :=
      { id := db.nextId, full_name := b.fullName, email := b.email,
        phone := b.phone, class_level := b.classLevel,
        password_hash := passwordHash, registration_date := some now,
        is_active := true, trial_used := false }
    let token := jwt.sign { userId := row.id, email := row.email }
      JWT_SECRET (some 86400) now
    ({ status := 201,
       body := .json [("success", .atom (.bool true)),
         ("message", .atom (.str "Registration successful!")),
         ("token", .atom (.tok token)),
         ("user", .obj [("id", .num row.id),
           ("fullName", jstr row.full_name),
           ("email", jstr row.email),
           ("classLevel", jstr row.class_level),
           ("registrationDate", jdate row.registration_date)])] },
     { db with users := db.users ++ [row], nextId := db.nextId + 1 })

/-- `POST /api/auth/login` (richer variant, lines 333-394).
Query 0 = user lookup (with `is_active = true`). -/
def loginRich (db : Db) (now : Nat) (b : ReqBody) (faults : List Bool) :
    Response × Db :=
  if falsy b.email || falsy b.password then
    ({ status := 400,
       body := .json [("success", .atom (.bool false)),
         ("error", .atom (.str "Email and password are required"))] },
     db)
  else if qfail faults 0 then
    ({ status := 500,
       body := .json [("success", .atom (.bool false)),
         ("error", .atom (.str ("Login failed: " ++ dbErrMsg)))] },
     db)
  else
    match (db.users.filter (fun u => emailEq u b.email && u.is_active)).head? with
    | none =>
      ({ status := 401,
         body := .json [("success", .atom (.bool false)),
           ("error", .atom (.str "Invalid email or password"))] },
       db)
    | some u =>
      if !bcrypt.compare (b.password.getD "") u.password_hash then
        ({ status := 401,
           body := .json [("success", .atom (.bool false)),
             ("error", .atom (.str "Invalid email or password"))] },
         db)
      else
        let token := jwt.sign { userId := u.id, email := u.email }
          JWT_SECRET (some 86400) now
        ({ status := 200,
           body := .json [("success", .atom (.bool true)),
             ("message", .atom (.str "Login successful!")),
             ("token", .atom (.tok token)),
             ("user", .obj [("id", .num u.id),
               ("fullName", jstr u.full_name),
               ("email", jstr u.email),
               ("classLevel", jstr u.class_level)])] },
         db)

/-- Ordering used by `ORDER BY id` on the courses table. -/
def courseLe (a b : CourseRow) : Prop := a.id ≤ b.id

instance : DecidableRel courseLe := fun a b => Nat.decLe a.id b.id

instance : IsTotal CourseRow courseLe := ⟨fun a b => Nat.le_total a.id b.id⟩

instance : IsTrans CourseRow courseLe := ⟨fun _ _ _ => Nat.le_trans⟩

/-- `SELECT * FROM courses WHERE is_active = true ORDER BY id`. -/
def coursesQuery (db : Db) : List CourseRow :=
  (db.courses.filter (fun c => c.is_active)).insertionSort courseLe

/-- A courses row as serialised by `res.json`. -/
def courseToJ (c : CourseRow) : JFlat :=
  [("id", .num c.id), ("title", .str c.title), ("is_active", .bool c.is_active)]

/-- `GET /api/courses` (richer variant, lines 397-415). Query 0 = SELECT. -/
def coursesRich (db : Db) (faults : List Bool) : Response × Db :=
  if qfail faults 0 then
    ({ status := 500,
       body := .json [("success", .atom (.bool false)),
         ("error", .atom (.str ("Failed to fetch courses: " ++ dbErrMsg)))] },
     db)
  else
    ({ status := 200,
       body := .json [("success", .atom (.bool true)),
         ("courses", .arrObj ((coursesQuery db).map courseToJ))] },
     db)

/-- The user projection returned by the profile lookup
(`SELECT id, full_name, email, phone, class_level, registration_date`). -/
def profileProj (u : UserRow) : JFlat :=
  [("id", .num u.id), ("full_name", jstr u.full_name),
   ("email", jstr u.email), ("phone", jstr u.phone),
   ("class_level", jstr u.class_level),
   ("registration_date", jdate u.registration_date)]

/-- The `Authorization` header of a request: `none` when absent, otherwise
the raw header text together with the token denoted by the text after the
first space, as computed by splitting the header at spaces; that component is `none` when the
text is not a well-formed signed token, in which case `jwt.verify` throws. -/
abbrev AuthHeader := Option (String × Option Jwt)

/-- The profile 401 for a missing or malformed `Authorization` header. -/
def respNoToken : Response :=
  { status := 401,
    body := .json [("success", .atom (.bool false)),
      ("error", .atom (.str "No valid token provided"))] }

/-- The profile 401 produced by its `catch` block for every raised error. -/
def respInvalidToken : Response :=
  { status := 401,
    body := .json [("success", .atom (.bool false)),
      ("error", .atom (.str "Invalid or expired token"))] }

/-- The profile 404 when no active user carries the token identifier. -/
def respUserNotFound : Response :=
  { status := 404,
    body := .json [("success", .atom (.bool false)),
      ("error", .atom (.str "User not found"))] }

/-- `GET /api/user/profile` (richer variant, lines 418-455).
Query 0 = user lookup.  The shared `catch` turns every raised error —
a malformed or failed-verification token, but also a store failure in the
lookup — into `401 Invalid or expired token`. -/
def profileRich (db : Db) (now : Nat) (auth : AuthHeader) (faults : List Bool) :
    Response × Db :=
  match auth with
  | none => (respNoToken, db)
  | some (raw, t?) =>
    if !jsStartsWith raw "Bearer " then
      (respNoToken, db)
    else
      match t? with
      | none => (respInvalidToken, db)
      | some t =>
        match jwt.verify t JWT_SECRET now with
        | .error _ => (respInvalidToken, db)
        | .ok p =>
          if qfail faults 0 then
            (respInvalidToken, db)
          else
            match (db.users.filter
                (fun u => u.id == p.userId && u.is_active)).head? with
            | none => (respUserNotFound, db)
            | some u =>
              ({ status := 200,
                 body := .json [("success", .atom (.bool true)),
                   ("user", .obj (profileProj u))] },
               db)

/-- `ORDER BY registration_date DESC` (PostgreSQL puts NULLs first on a
descending sort, i.e. NULL sorts as the largest value). -/
def regDateDesc (a b : UserRow) : Prop :=
  (b.registration_date.elim ⊤ (fun n => (n : WithTop Nat))) ≤
    (a.registration_date.elim ⊤ (fun n => (n : WithTop Nat)))

instance : DecidableRel regDateDesc := fun _ _ => inferInstanceAs (Decidable (_ ≤ _))

/-- The user projection returned by the admin listing. -/
def adminProj (u : UserRow) : JFlat :=
  [("id", .num u.id), ("full_name", jstr u.full_name),
   ("email", jstr u.email), ("phone", jstr u.phone),
   ("class_level", jstr u.class_level),
   ("registration_date", jdate u.registration_date),
   ("is_active", .bool u.is_active)]

/-- `GET /api/admin/users` (richer variant, lines 458-478). Query 0 = SELECT. -/
def adminUsersRich (db : Db) (faults : List Bool) : Response × Db :=
  if qfail faults 0 then
    ({ status := 500,
       body := .json [("success", .atom (.bool false)),
         ("error", .atom (.str ("Failed to fetch users: " ++ dbErrMsg)))] },
     db)
  else
    let rows := (db.users.insertionSort regDateDesc).map adminProj
    ({ status := 200,
       body := .json [("success", .atom (.bool true)),
         ("users", .arrObj rows),
         ("total", .atom (.num rows.length))] },
     db)

/-- `GET /health` (richer variant; `NODE_ENV` unset). -/
def healthRich (now : Nat) : Response :=
  { status := 200,
    body := .json [("status", .atom (.str "OK")),
      ("message", .atom (.str "Marine Mentors Backend is running!")),
      ("timestamp", .atom (.num now)),
      ("environment", .atom (.str "development"))] }

/-- `GET /api/test-db` (richer variant). Queries 0 = `SELECT NOW()`,
1 = the `information_schema` check; the model assumes the schema is in
place (`usersTableExists: true`). -/
def testDbRich (db : Db) (now : Nat) (faults : List Bool) : Response × Db :=
  if qfail faults 0 || qfail faults 1 then
    ({ status := 500,
       body := .json [("success", .atom (.bool false)),
         ("message", .atom (.str "Database connection failed")),
         ("error", .atom (.str dbErrMsg))] },
     db)
  else
    ({ status := 200,
       body := .json [("success", .atom (.bool true)),
         ("message", .atom (.str "Database connection successful")),
         ("timestamp", .atom (.num now)),
         ("usersTableExists", .atom (.bool true))] },
     db)

/-- The `GET *` catch-all response (richer variant, lines 481-495). -/
def catchAllRich (path : String) : Response :=
  { status := 404,
    body := .json [("error", .atom (.str "Route not found")),
      ("requestedPath", .atom (.str path)),
      ("availableRoutes", .arrStr
        ["GET /health", "GET /api/test-db", "POST /api/auth/register",
         "POST /api/auth/login", "GET /api/courses",
         "GET /api/user/profile", "GET /api/admin/users"])] }

/-- HTTP methods. -/
inductive Method where
  | GET
  | POST
  | PUT
  | DELETE
deriving DecidableEq, Repr

def Method.toStr : Method → String
  | .GET => "GET"
  | .POST => "POST"
  | .PUT => "PUT"
  | .DELETE => "DELETE"

/-- The HTML 404 page Express itself produces for a request no registered
route matched. -/
def expressDefault404 (m : Method) (path : String) : Response :=
  { status := 404, body := .html ("Cannot " ++ m.toStr ++ " " ++ path) }

/-- An incoming HTTP request. -/
structure Request where
  method : Method
  path : String
  body : ReqBody
  authorization : AuthHeader

/-- The routes of the richer variant, by registration order; the final
the catch-all registered with a star pattern matches every GET path. -/
inductive RouteRich where
  | health
  | testDb
  | register
  | login
  | courses
  | profile
  | adminUsers
  | catchAll
deriving DecidableEq, Repr

/-- Route matching for the richer variant: first registered route whose
method and path pattern match; `none` when no route matches (Express then
answers with its default 404 page). -/
def dispatchRich (m : Method) (path : String) : Option RouteRich :=
  if m == .GET && path == "/health" then some .health
  else if m == .GET && path == "/api/test-db" then some .testDb
  else if m == .POST && path == "/api/auth/register" then some .register
  else if m == .POST && path == "/api/auth/login" then some .login
  else if m == .GET && path == "/api/courses" then some .courses
  else if m == .GET && path == "/api/user/profile" then some .profile
  else if m == .GET && path == "/api/admin/users" then some .adminUsers
  else if m == .GET then some .catchAll
  else none

/-- The richer-variant server: dispatch plus handler. -/
def serverRich (db : Db) (now : Nat) (req : Request) (faults : List Bool) :
    Response × Db :=
  match dispatchRich req.method req.path with
  | some .health => (healthRich now, db)
  | some .testDb => testDbRich db now faults
  | some .register => registerRich db now req.body faults
  | some .login => loginRich db now req.body faults
  | some .courses => coursesRich db faults
  | some .profile => profileRich db now req.authorization faults
  | some .adminUsers => adminUsersRich db faults
  | some .catchAll => (catchAllRich req.path, db)
  | none => (expressDefault404 req.method req.path, db)

/-! ## Minimal variant (`src/server.js`) -/

/-- `POST /api/auth/register` (minimal variant, lines 27-47): no field
validation; `bcrypt.hash(undefined, 10)` rejects into the catch; the INSERT
names only the five provided columns, so `registration_date`, `is_active`
and `trial_used` take the column defaults of the store.
Queries in order: 0 = existence check, 1 = INSERT. -/
def registerMin (db : Db) (now : Nat) (b : ReqBody) (faults : List Bool) :
    Response × Db :=
  if qfail faults 0 then
    ({ status := 500,
       body := .json [("error", .atom (.str "Registration failed"))] }, db)
  else if (db.users.filter (fun u => emailEq u b.email)).length > 0 then
    ({ status := 400,
       body := .json [("error", .atom (.str "User already exists"))] }, db)
  else
    match b.password with
    | none =>
      ({ status := 500,
         body := .json [("error", .atom (.str "Registration failed"))] }, db)
    | some pw =>
      if qfail faults 1 then
        ({ status := 500,
           body := .json [("error", .atom (.str "Registration failed"))] }, db)
      else
        let row : UserRow :=
          { id := db.nextId, full_name := b.fullName, email := b.email,
            phone := b.phone, class_level := b.classLevel,
            password_hash := bcrypt.hash pw 10,
            registration_date := db.defaults.registration_date,
            is_active := db.defaults.is_active,
            trial_used := db.defaults.trial_used }
        let token := jwt.sign { userId := row.id, email := none }
          JWT_SECRET none now
        ({ status := 200,
           body := .json [("success", .atom (.bool true)),
             ("token", .atom (.tok token)),
             ("user", .obj [("id", .num row.id),
               ("full_name", jstr row.full_name),
               ("email", jstr row.email)])] },
         { db with users := db.users ++ [row], nextId := db.nextId + 1 })

/-- `POST /api/auth/login` (minimal variant, lines 50-69): no validation,
no `is_active` filter; `bcrypt.compare(undefined, hash)` rejects into the
catch.  Query 0 = user lookup. -/
def loginMin (db : Db) (now : Nat) (b : ReqBody) (faults : List Bool) :
    Response × Db :=
  if qfail faults 0 then
    ({ status := 500,
       body := .json [("error", .atom (.str "Login failed"))] }, db)
  else
    match (db.users.filter (fun u => emailEq u b.email)).head? with
    | none =>
      ({ status := 400,
         body := .json [("error", .atom (.str "Invalid credentials"))] }, db)
    | some u =>
      match b.password with
      | none =>
        ({ status := 500,
           body := .json [("error", .atom (.str "Login failed"))] }, db)
      | some pw =>
        if !bcrypt.compare pw u.password_hash then
          ({ status := 400,
             body := .json [("error", .atom (.str "Invalid credentials"))] }, db)
        else
          let token := jwt.sign { userId := u.id, email := none }
            JWT_SECRET none now
          ({ status := 200,
             body := .json [("success", .atom (.bool true)),
               ("token", .atom (.tok token)),
               ("user", .obj [("id", .num u.id),
                 ("fullName", jstr u.full_name),
                 ("email", jstr u.email)])] },
           db)

/-- `GET /api/courses` (minimal variant, lines 72-79): same query as the
richer variant, terser error body. Query 0 = SELECT. -/
def coursesMin (db : Db) (faults : List Bool) : Response × Db :=
  if qfail faults 0 then
    ({ status := 500,
       body := .json [("error", .atom (.str "Failed to fetch courses"))] }, db)
  else
    ({ status := 200,
       body := .json [("success", .atom (.bool true)),
         ("courses", .arrObj ((coursesQuery db).map courseToJ))] },
     db)

/-- `GET /health` (minimal variant). -/
def healthMin : Response :=
  { status := 200,
    body := .json [("status", .atom (.str "OK")),
      ("message", .atom (.str "Marine Mentors Backend is running!"))] }

/-- The routes of the minimal variant; it registers no catch-all. -/
inductive RouteMin where
  | health
  | register
  | login
  | courses
deriving DecidableEq, Repr

/-- Route matching for the minimal variant (no catch-all). -/
def dispatchMin (m : Method) (path : String) : Option RouteMin :=
  if m == .GET && path == "/health" then some .health
  else if m == .POST && path == "/api/auth/register" then some .register
  else if m == .POST && path == "/api/auth/login" then some .login
  else if m == .GET && path == "/api/courses" then some .courses
  else none

/-- The minimal-variant server. -/
def serverMin (db : Db) (now : Nat) (req : Request) (faults : List Bool) :
    Response × Db :=
  match dispatchMin req.method req.path with
  | some .health => (healthMin, db)
  | some .register => registerMin db now req.body faults
  | some .login => loginMin db now req.body faults
  | some .courses => coursesMin db faults
  | none => (expressDefault404 req.method req.path, db)

/-! ## Middle variant (`src/unnamed/part_000`, first document, lines 1-176) -/

/-- `POST /api/auth/register` (middle variant, lines 61-96): no field
validation; the same five-column INSERT as the minimal variant, so the
remaining columns take the store defaults; the token carries no email and
no expiry; error bodies expose `details: error.message`.
Queries in order: 0 = existence check, 1 = INSERT. -/
def registerMid (db : Db) (now : Nat) (b : ReqBody) (faults : List Bool) :
    Response × Db :=
  if qfail faults 0 then
    ({ status := 500,
       body := .json [("error", .atom (.str "Registration failed")),
         ("details", .atom (.str dbErrMsg))] }, db)
  else if (db.users.filter (fun u => emailEq u b.email)).length > 0 then
    ({ status := 400,
       body := .json [("error", .atom (.str "User already exists with this email"))] }, db)
  else
    match b.password with
    | none =>
      ({ status := 500,
         body := .json [("error", .atom (.str "Registration failed")),
           ("details", .atom (.str bcryptErrMsg))] }, db)
    | some pw =>
      if qfail faults 1 then
        ({ status := 500,
           body := .json [("error", .atom (.str "Registration failed")),
             ("details", .atom (.str dbErrMsg))] }, db)
      else
        let row : UserRow :=
          { id := db.nextId, full_name := b.fullName, email := b.email,
            phone := b.phone, class_level := b.classLevel,
            password_hash := bcrypt.hash pw 10,
            registration_date := db.defaults.registration_date,
            is_active := db.defaults.is_active,
            trial_used := db.defaults.trial_used }
        let token := jwt.sign { userId := row.id, email := none } JWT_SECRET none now
        ({ status := 200,
           body := .json [("success", .atom (.bool true)),
             ("token", .atom (.tok token)),
             ("user", .obj [("id", .num row.id),
               ("full_name", jstr row.full_name),
               ("email", jstr row.email)]),
             ("message", .atom (.str "Registration successful!"))] },
         { db with users := db.users ++ [row], nextId := db.nextId + 1 })

/-- `POST /api/auth/login` (middle variant, lines 99-136): no validation,
no `is_active` filter; token without email or expiry. Query 0 = lookup. -/
def loginMid (db : Db) (now : Nat) (b : ReqBody) (faults : List Bool) :
    Response × Db :=
  if qfail faults 0 then
    ({ status := 500,
       body := .json [("error", .atom (.str "Login failed")),
         ("details", .atom (.str dbErrMsg))] }, db)
  else
    match (db.users.filter (fun u => emailEq u b.email)).head? with
    | none =>
      ({ status := 400,
         body := .json [("error", .atom (.str "Invalid email or password"))] }, db)
    | some u =>
      match b.password with
      | none =>
        ({ status := 500,
           body := .json [("error", .atom (.str "Login failed")),
             ("details", .atom (.str bcryptErrMsg))] }, db)
      | some pw =>
        if !bcrypt.compare pw u.password_hash then
          ({ status := 400,
             body := .json [("error", .atom (.str "Invalid email or password"))] }, db)
        else
          let token := jwt.sign { userId := u.id, email := none } JWT_SECRET none now
          ({ status := 200,
             body := .json [("success", .atom (.bool true)),
               ("token", .atom (.tok token)),
               ("user", .obj [("id", .num u.id),
                 ("fullName", jstr u.full_name),
                 ("email", jstr u.email),
                 ("classLevel", jstr u.class_level)]),
               ("message", .atom (.str "Login successful!"))] },
           db)

/-- `GET /api/courses` (middle variant, lines 139-153): same query as the
other variants, error body with `details`. Query 0 = SELECT. -/
def coursesMid (db : Db) (faults : List Bool) : Response × Db :=
  if qfail faults 0 then
    ({ status := 500,
       body := .json [("error", .atom (.str "Failed to fetch courses")),
         ("details", .atom (.str dbErrMsg))] }, db)
  else
    ({ status := 200,
       body := .json [("success", .atom (.bool true)),
         ("courses", .arrObj ((coursesQuery db).map courseToJ))] }, db)

/-- `GET /api/test-db` (middle variant, lines 43-58). Query 0 = SELECT. -/
def testDbMid (db : Db) (now : Nat) (faults : List Bool) : Response × Db :=
  if qfail faults 0 then
    ({ status := 500,
       body := .json [("success", .atom (.bool false)),
         ("message", .atom (.str "Database connection failed")),
         ("error", .atom (.str dbErrMsg))] }, db)
  else
    ({ status := 200,
       body := .json [("success", .atom (.bool true)),
         ("message", .atom (.str "Database connection successful")),
         ("timestamp", .atom (.num now))] }, db)

/-- `GET /health` (middle variant, lines 34-40). -/
def healthMid (now : Nat) : Response :=
  { status := 200,
    body := .json [("status", .atom (.str "OK")),
      ("message", .atom (.str "Marine Mentors Backend is running!")),
      ("timestamp", .atom (.num now))] }

/-- The `GET *` catch-all response (middle variant, lines 156-167): no
requested-path field, five listed routes. -/
def catchAllMid : Response :=
  { status := 404,
    body := .json [("error", .atom (.str "Route not found")),
      ("availableRoutes", .arrStr
        ["GET /health", "GET /api/test-db", "POST /api/auth/register",
         "POST /api/auth/login", "GET /api/courses"])] }

/-- The routes of the middle variant, by registration order; the final
`GET *` catch-all matches every GET path. -/
inductive RouteMid where
  | health
  | testDb
  | register
  | login
  | courses
  | catchAll
deriving DecidableEq, Repr

/-- Route matching for the middle variant. -/
def dispatchMid (m : Method) (path : String) : Option RouteMid :=
  if m == .GET && path == "/health" then some .health
  else if m == .GET && path == "/api/test-db" then some .testDb
  else if m == .POST && path == "/api/auth/register" then some .register
  else if m == .POST && path == "/api/auth/login" then some .login
  else if m == .GET && path == "/api/courses" then some .courses
  else if m == .GET then some .catchAll
  else none

/-- The middle-variant server. -/
def serverMid (db : Db) (now : Nat) (req : Request) (faults : List Bool) :
    Response × Db :=
  match dispatchMid req.method req.path with
  | some .health => (healthMid now, db)
  | some .testDb => testDbMid db now faults
  | some .register => registerMid db now req.body faults
  | some .login => loginMid db now req.body faults
  | some .courses => coursesMid db faults
  | some .catchAll => (catchAllMid, db)
  | none => (expressDefault404 req.method req.path, db)

/-! ## Response field extractors -/

/-- The JSON object of a response, when its body is JSON. -/
def Response.jsonBody : Response → Option JObj
  | { status := _, body := .json o } => some o
  | _ => none

/-- Look up a top-level field of a JSON response. -/
def respField (r : Response) (k : String) : Option JVal :=
  r.jsonBody.bind (fun o => (o.find? (fun kv => kv.1 == k)).map (fun kv => kv.2))

/-- The token carried by a response, when present. -/
def respToken (r : Response) : Option Jwt :=
  match respField r "token" with
  | some (.atom (.tok t)) => some t
  | _ => none

/-- The `user` object carried by a response, when present. -/
def respUser (r : Response) : Option JFlat :=
  match respField r "user" with
  | some (.obj o) => some o
  | _ => none

/-- The `user.id` field of a response, when present. -/
def respUserId (r : Response) : Option Nat :=
  match ((respUser r).bind (fun o => (o.find? (fun kv => kv.1 == "id")).map
      (fun kv => kv.2)) : Option JAtom) with
  | some (.num n) => some n
  | _ => none

/-! ## Concrete example data (used to instantiate the theorems) -/

/-- An existing active user with email `a@x.com` and password `pw`. -/
def uA : UserRow :=
  { id := 1, full_name := some "A", email := some "a@x.com", phone := some "1",
    class_level := some "1", password_hash := bcrypt.hash "pw" 10,
    registration_date := some 100, is_active := true, trial_used := false }

/-- An example store: one user, three courses (one inactive, ids out of
order), and column defaults that do not activate a row. -/
def dbEx : Db :=
  { users := [uA],
    courses := [⟨2, "Nav", true⟩, ⟨1, "Eng", true⟩, ⟨3, "Off", false⟩],
    nextId := 2,
    defaults := { is_active := false, trial_used := true,
                  registration_date := none } }

/-- A registration request re-using the existing email. -/
def bodyDup : ReqBody :=
  { fullName := some "B", email := some "a@x.com", phone := some "2",
    classLevel := some "2", password := some "pw2" }

/-- A registration request with a fresh email. -/
def bodyNew : ReqBody :=
  { fullName := some "B", email := some "b@x.com", phone := some "2",
    classLevel := some "2", password := some "pw2" }

/-- A login request with an email no user has. -/
def bodyLoginNoUser : ReqBody :=
  { fullName := none, email := some "z@x.com", phone := none,
    classLevel := none, password := some "pw" }

/-- A login request with the existing email but the wrong password. -/
def bodyLoginWrongPw : ReqBody :=
  { fullName := none, email := some "a@x.com", phone := none,
    classLevel := none, password := some "wrong" }

/-- A login request with no password field. -/
def bodyLoginNoPw : ReqBody :=
  { fullName := none, email := some "a@x.com", phone := none,
    classLevel := none, password := none }

/-- A valid 24h token for user 1 issued at time 100. -/
def tokA : Jwt := jwt.sign { userId := 1, email := some "a@x.com" } JWT_SECRET (some 86400) 100

/-- A POST request to a path no route matches. -/
def reqPostNope : Request :=
  { method := .POST, path := "/nope", body := bodyNew, authorization := none }

/-- A GET request to a path no endpoint route matches. -/
def reqGetNope : Request :=
  { method := .GET, path := "/nope", body := bodyNew, authorization := none }

/-- The row inserted by a successful richer-variant registration. -/
def newRowRich (db : Db) (now : Nat) (b : ReqBody) : UserRow :=
  { id := db.nextId, full_name := b.fullName, email := b.email,
    phone := b.phone, class_level := b.classLevel,
    password_hash := bcrypt.hash (b.password.getD "") 10,
    registration_date := some now, is_active := true, trial_used := false }

/-- The row inserted by a successful minimal-variant registration: only the
five provided columns are set; the rest take the store defaults. -/
def newRowMin (db : Db) (b : ReqBody) (p : String) : UserRow :=
  { id := db.nextId, full_name := b.fullName, email := b.email,
    phone := b.phone, class_level := b.classLevel,
    password_hash := bcrypt.hash p 10,
    registration_date := db.defaults.registration_date,
    is_active := db.defaults.is_active, trial_used := db.defaults.trial_used }

/-- A token signed with a different secret: verification fails. -/
def tokBadSecret : Jwt :=
  { payload := { userId := 1, email := none }, iat := 0, expSec := none,
    secret := "other_secret" }

/-- A well-signed token whose identifier matches no stored user. -/
def tokGhost : Jwt := jwt.sign { userId := 99, email := none } JWT_SECRET none 0

/-! ## Helper lemmas -/

/-- A NULL-tolerant column value only equals a string atom when the column
holds exactly that string. -/
theorem jstr_ne_of_ne (x : Option String) (s : String) (h : x ≠ some s) :
    jstr x ≠ JAtom.str s := by
  cases x with
  | none => simp [jstr]
  | some v =>
    simp only [jstr, ne_eq, JAtom.str.injEq]
    intro he
    exact h (by rw [he])

/-- The symbolic bcrypt digest is never the plaintext it hashes. -/
theorem bcrypt_hash_ne_plaintext (pw : String) (c : Nat) : bcrypt.hash pw c ≠ pw := by
  intro h
  have hlen := congrArg String.length h
  have h7 : String.length "bcrypt$" = 7 := rfl
  have h1 : String.length "$" = 1 := rfl
  rw [bcrypt.hash, String.length_append, String.length_append, String.length_append,
    h7, h1] at hlen
  omega

/-- Unfolding of a fault-free, valid, non-duplicate richer registration. -/
theorem registerRich_success
    (db : Db) (now : Nat) (b : ReqBody)
    (hfn : falsy b.fullName = false) (hem : falsy b.email = false)
    (hph : falsy b.phone = false) (hcl : falsy b.classLevel = false)
    (hpw : falsy b.password = false)
    (hdup : db.users.filter (fun u => emailEq u b.email) = []) :
    registerRich db now b [] =
      ({ status := 201,
         body := .json [("success", .atom (.bool true)),
           ("message", .atom (.str "Registration successful!")),
           ("token", .atom (.tok (jwt.sign { userId := db.nextId, email := b.email }
             JWT_SECRET (some 86400) now))),
           ("user", .obj [("id", .num db.nextId),
             ("fullName", jstr b.fullName),
             ("email", jstr b.email),
             ("classLevel", jstr b.classLevel),
             ("registrationDate", jdate (some now))])] },
       { db with users := db.users ++ [newRowRich db now b],
                 nextId := db.nextId + 1 }) := by
  simp [registerRich, newRowRich, hfn, hem, hph, hcl, hpw, hdup, qfail]

/-- Unfolding of a fault-free, non-duplicate minimal registration. -/
theorem registerMin_success
    (db : Db) (now : Nat) (b : ReqBody) (p : String)
    (hdup : db.users.filter (fun u => emailEq u b.email) = [])
    (hpv : b.password = some p) :
    registerMin db now b [] =
      ({ status := 200,
         body := .json [("success", .atom (.bool true)),
           ("token", .atom (.tok (jwt.sign { userId := db.nextId, email := none }
             JWT_SECRET none now))),
           ("user", .obj [("id", .num db.nextId),
             ("full_name", jstr b.fullName),
             ("email", jstr b.email)])] },
       { db with users := db.users ++ [newRowMin db b p],
                 nextId := db.nextId + 1 }) := by
  simp [registerMin, newRowMin, qfail, hdup, hpv]

/-! ## Claims -/

/-- Claim C1: for every registration request whose email already has a row
in the users table (the request being otherwise well-formed and the store
fault-free), both registration handlers answer HTTP 400 with their
user-exists error and leave the store — in particular the users table —
completely unchanged, performing no insert. -/
theorem register_existing_email_rejected
    (db : Db) (now : Nat) (b : ReqBody) (faults : List Bool)
    (hq : qfail faults 0 = false)
    (hdup : 0 < (db.users.filter (fun u => emailEq u b.email)).length)
    (hfn : falsy b.fullName = false) (hem : falsy b.email = false)
    (hph : falsy b.phone = false) (hcl : falsy b.classLevel = false)
    (hpw : falsy b.password = false) :
    registerRich db now b faults =
      ({ status := 400,
         body := .json [("success", .atom (.bool false)),
           ("error", .atom (.str "User already exists with this email"))] }, db) ∧
    registerMin db now b faults =
      ({ status := 400,
         body := .json [("error", .atom (.str "User already exists"))] }, db) := by
  constructor
  · simp [registerRich, hq, hdup, hfn, hem, hph, hcl, hpw]
  · simp [registerMin, hq, hdup]

theorem register_existing_email_rejected_witness :
    registerRich dbEx 200 bodyDup [] =
      ({ status := 400,
         body := .json [("success", .atom (.bool false)),
           ("error", .atom (.str "User already exists with this email"))] }, dbEx) ∧
    registerMin dbEx 200 bodyDup [] =
      ({ status := 400,
         body := .json [("error", .atom (.str "User already exists"))] }, dbEx) :=
  register_existing_email_rejected dbEx 200 bodyDup [] (by decide) (by decide)
    (by decide) (by decide) (by decide) (by decide) (by decide)

/-- Claim C2: a login with an email matching no (active) user and a login
with an existing email but a non-matching password produce identical
responses — same status code, same generic error body — in both variants,
so the two failure causes are indistinguishable to the client. -/
theorem login_failures_indistinguishable
    (db : Db) (now1 now2 : Nat) (b1 b2 : ReqBody) (f1 f2 : List Bool) (u u' : UserRow)
    (hq1 : qfail f1 0 = false) (hq2 : qfail f2 0 = false)
    (h1em : falsy b1.email = false) (h1pw : falsy b1.password = false)
    (h2em : falsy b2.email = false) (h2pw : falsy b2.password = false)
    (hnone : (db.users.filter (fun v => emailEq v b1.email && v.is_active)).head? = none)
    (hu : (db.users.filter (fun v => emailEq v b2.email && v.is_active)).head? = some u)
    (hmm : bcrypt.compare (b2.password.getD "") u.password_hash = false)
    (hnoneMin : (db.users.filter (fun v => emailEq v b1.email)).head? = none)
    (huMin : (db.users.filter (fun v => emailEq v b2.email)).head? = some u')
    (hmmMin : bcrypt.compare (b2.password.getD "") u'.password_hash = false) :
    (loginRich db now1 b1 f1).1 = (loginRich db now2 b2 f2).1 ∧
    (loginRich db now1 b1 f1).1.status = 401 ∧
    (loginMin db now1 b1 f1).1 = (loginMin db now2 b2 f2).1 ∧
    (loginMin db now1 b1 f1).1.status = 400 := by
  obtain ⟨pw2, hpw2⟩ : ∃ s, b2.password = some s := by
    cases hx : b2.password
    · rw [hx] at h2pw; simp [falsy] at h2pw
    · exact ⟨_, rfl⟩
  rw [hpw2] at hmm hmmMin h2pw
  simp only [Option.getD_some] at hmm hmmMin
  refine ⟨?_, ?_, ?_, ?_⟩
  · simp [loginRich, hq1, hq2, h1em, h1pw, h2em, h2pw, hnone, hu, hmm, hpw2]
  · simp [loginRich, hq1, h1em, h1pw, hnone]
  · simp [loginMin, hq1, hq2, hnoneMin, huMin, hpw2, hmmMin]
  · simp [loginMin, hq1, hnoneMin]

theorem login_failures_indistinguishable_witness :
    (loginRich dbEx 0 bodyLoginNoUser []).1 = (loginRich dbEx 5 bodyLoginWrongPw []).1 ∧
    (loginRich dbEx 0 bodyLoginNoUser []).1.status = 401 ∧
    (loginMin dbEx 0 bodyLoginNoUser []).1 = (loginMin dbEx 5 bodyLoginWrongPw []).1 ∧
    (loginMin dbEx 0 bodyLoginNoUser []).1.status = 400 :=
  login_failures_indistinguishable dbEx 0 5 bodyLoginNoUser bodyLoginWrongPw [] [] uA uA
    (by decide) (by decide) (by decide) (by decide) (by decide) (by decide)
    (by decide) (by decide) (by decide) (by decide) (by decide) (by decide)

/-- Claim C10: a richer-variant login request missing the email or password
field receives HTTP 400 with the distinct required-fields validation error,
under every fault schedule — hence before any store lookup or hash
comparison could run — and that response differs from the generic
invalid-credentials error. -/
theorem login_missing_fields_validation
    (db : Db) (now : Nat) (b : ReqBody) (faults : List Bool)
    (h : falsy b.email = true ∨ falsy b.password = true) :
    loginRich db now b faults =
      ({ status := 400,
         body := .json [("success", .atom (.bool false)),
           ("error", .atom (.str "Email and password are required"))] }, db) ∧
    (loginRich db now b faults).1 ≠
      { status := 401,
        body := .json [("success", .atom (.bool false)),
          ("error", .atom (.str "Invalid email or password"))] } := by
  have hcond : (falsy b.email || falsy b.password) = true := by
    rcases h with h | h <;> simp [h]
  constructor
  · simp [loginRich, hcond]
  · simp [loginRich, hcond]

theorem login_missing_fields_validation_witness :
    loginRich dbEx 0 bodyLoginNoPw [true, true] =
      ({ status := 400,
         body := .json [("success", .atom (.bool false)),
           ("error", .atom (.str "Email and password are required"))] }, dbEx) ∧
    (loginRich dbEx 0 bodyLoginNoPw [true, true]).1 ≠
      { status := 401,
        body := .json [("success", .atom (.bool false)),
          ("error", .atom (.str "Invalid email or password"))] } :=
  login_missing_fields_validation dbEx 0 bodyLoginNoPw [true, true] (Or.inr (by decide))

/-- Claim C3: presenting the token returned by a successful richer-variant
registration to the profile endpoint before it expires, with the store
unchanged in between, yields a 200 response whose user identifier equals
the identifier of the user that registration created, without modifying
the store. -/
theorem register_token_profile_same_user
    (db : Db) (now now2 : Nat) (b : ReqBody) (raw : String) (t : Jwt)
    (hids : ∀ u ∈ db.users, u.id < db.nextId)
    (hfn : falsy b.fullName = false) (hem : falsy b.email = false)
    (hph : falsy b.phone = false) (hcl : falsy b.classLevel = false)
    (hpw : falsy b.password = false)
    (hdup : db.users.filter (fun u => emailEq u b.email) = [])
    (ht : respToken (registerRich db now b []).1 = some t)
    (hraw : jsStartsWith raw "Bearer " = true)
    (hexp : now2 < now + 86400) :
    (registerRich db now b []).1.status = 201 ∧
    respUserId (registerRich db now b []).1 = some db.nextId ∧
    (profileRich (registerRich db now b []).2 now2 (some (raw, some t)) []).1.status = 200 ∧
    respUserId (profileRich (registerRich db now b []).2 now2 (some (raw, some t)) []).1
      = some db.nextId ∧
    (profileRich (registerRich db now b []).2 now2 (some (raw, some t)) []).2
      = (registerRich db now b []).2 := by
  have hreg := registerRich_success db now b hfn hem hph hcl hpw hdup
  have ht2 : t = jwt.sign { userId := db.nextId, email := b.email } JWT_SECRET (some 86400) now := by
    have ht3 : some (jwt.sign { userId := db.nextId, email := b.email } JWT_SECRET (some 86400) now)
        = some t := by
      rw [← ht, hreg]
      rfl
    exact (Option.some.inj ht3).symm
  subst ht2
  have hfilter : (db.users ++ [newRowRich db now b]).filter
      (fun u => u.id == db.nextId && u.is_active) = [newRowRich db now b] := by
    rw [List.filter_append]
    have h1 : db.users.filter (fun u => u.id == db.nextId && u.is_active) = [] := by
      refine List.filter_eq_nil_iff.mpr (fun u hu => ?_)
      have hlt := hids u hu
      simp [Nat.ne_of_lt hlt]
    rw [h1]
    simp [newRowRich]
  have hnotle : ¬(now + 86400 ≤ now2) := Nat.not_le.mpr hexp
  have hprof : profileRich { db with users := db.users ++ [newRowRich db now b],
                                     nextId := db.nextId + 1 } now2
      (some (raw, some (jwt.sign { userId := db.nextId, email := b.email }
        JWT_SECRET (some 86400) now))) [] =
      ({ status := 200,
         body := .json [("success", .atom (.bool true)),
           ("user", .obj (profileProj (newRowRich db now b)))] },
       { db with users := db.users ++ [newRowRich db now b],
                 nextId := db.nextId + 1 }) := by
    simp [profileRich, hraw, jwt.verify, jwt.sign, qfail, hnotle, hfilter]
  rw [hreg]
  refine ⟨rfl, rfl, ?_, ?_, ?_⟩
  · rw [hprof]
  · rw [hprof]
    simp [respUserId, respUser, respField, Response.jsonBody, profileProj, newRowRich]
  · rw [hprof]

theorem register_token_profile_same_user_witness :
    (registerRich dbEx 200 bodyNew []).1.status = 201 ∧
    respUserId (registerRich dbEx 200 bodyNew []).1 = some dbEx.nextId ∧
    (profileRich (registerRich dbEx 200 bodyNew []).2 300
      (some ("Bearer tk", some (jwt.sign { userId := 2, email := some "b@x.com" }
        JWT_SECRET (some 86400) 200))) []).1.status = 200 ∧
    respUserId (profileRich (registerRich dbEx 200 bodyNew []).2 300
      (some ("Bearer tk", some (jwt.sign { userId := 2, email := some "b@x.com" }
        JWT_SECRET (some 86400) 200))) []).1 = some dbEx.nextId ∧
    (profileRich (registerRich dbEx 200 bodyNew []).2 300
      (some ("Bearer tk", some (jwt.sign { userId := 2, email := some "b@x.com" }
        JWT_SECRET (some 86400) 200))) []).2 = (registerRich dbEx 200 bodyNew []).2 :=
  register_token_profile_same_user dbEx 200 300 bodyNew "Bearer tk"
    (jwt.sign { userId := 2, email := some "b@x.com" } JWT_SECRET (some 86400) 200)
    (by decide) (by decide) (by decide) (by decide) (by decide) (by decide) (by decide)
    (by decide) (by decide) (by decide)

/-- Claim C4: the user object returned by a successful registration
carries only public fields — id, fullName, email, classLevel,
registrationDate in the richer variant; id, full_name, email in the
minimal variant — with no password or password-hash key, and — whenever
the public inputs do not literally coincide with those secrets — neither
the stored hash nor the plaintext password occurs among its values. -/
theorem register_response_public_fields_only
    (db : Db) (now : Nat) (b : ReqBody)
    (hfn : falsy b.fullName = false) (hem : falsy b.email = false)
    (hph : falsy b.phone = false) (hcl : falsy b.classLevel = false)
    (hpw : falsy b.password = false)
    (hdup : db.users.filter (fun u => emailEq u b.email) = [])
    (hh1 : b.fullName ≠ some (bcrypt.hash (b.password.getD "") 10))
    (hh2 : b.email ≠ some (bcrypt.hash (b.password.getD "") 10))
    (hh3 : b.classLevel ≠ some (bcrypt.hash (b.password.getD "") 10))
    (hp1 : b.fullName ≠ b.password) (hp2 : b.email ≠ b.password)
    (hp3 : b.classLevel ≠ b.password) :
    respUser (registerRich db now b []).1 =
      some [("id", .num db.nextId), ("fullName", jstr b.fullName),
        ("email", jstr b.email), ("classLevel", jstr b.classLevel),
        ("registrationDate", .num now)] ∧
    ("password_hash" ∉ ([("id", (.num db.nextId : JAtom)), ("fullName", jstr b.fullName),
      ("email", jstr b.email), ("classLevel", jstr b.classLevel),
      ("registrationDate", .num now)].map Prod.fst) ∧
     "password" ∉ ([("id", (.num db.nextId : JAtom)), ("fullName", jstr b.fullName),
      ("email", jstr b.email), ("classLevel", jstr b.classLevel),
      ("registrationDate", .num now)].map Prod.fst)) ∧
    (JAtom.str (bcrypt.hash (b.password.getD "") 10) ∉
      ([("id", (.num db.nextId : JAtom)), ("fullName", jstr b.fullName),
        ("email", jstr b.email), ("classLevel", jstr b.classLevel),
        ("registrationDate", .num now)].map Prod.snd)) ∧
    (JAtom.str (b.password.getD "") ∉
      ([("id", (.num db.nextId : JAtom)), ("fullName", jstr b.fullName),
        ("email", jstr b.email), ("classLevel", jstr b.classLevel),
        ("registrationDate", .num now)].map Prod.snd)) ∧
    respUser (registerMin db now b []).1 =
      some [("id", .num db.nextId), ("full_name", jstr b.fullName),
        ("email", jstr b.email)] ∧
    ("password_hash" ∉ ([("id", (.num db.nextId : JAtom)), ("full_name", jstr b.fullName),
      ("email", jstr b.email)].map Prod.fst) ∧
     "password" ∉ ([("id", (.num db.nextId : JAtom)), ("full_name", jstr b.fullName),
      ("email", jstr b.email)].map Prod.fst)) ∧
    (JAtom.str (bcrypt.hash (b.password.getD "") 10) ∉
      ([("id", (.num db.nextId : JAtom)), ("full_name", jstr b.fullName),
        ("email", jstr b.email)].map Prod.snd)) ∧
    (JAtom.str (b.password.getD "") ∉
      ([("id", (.num db.nextId : JAtom)), ("full_name", jstr b.fullName),
        ("email", jstr b.email)].map Prod.snd)) := by
  obtain ⟨p, hpv⟩ : ∃ s, b.password = some s := by
    cases hx : b.password
    · rw [hx] at hpw; simp [falsy] at hpw
    · exact ⟨_, rfl⟩
  have hreg := registerRich_success db now b hfn hem hph hcl hpw hdup
  have hmin := registerMin_success db now b p hdup hpv
  refine ⟨by rw [hreg]; rfl, by simp, ?_, ?_, by rw [hmin]; rfl, by simp, ?_, ?_⟩
  · simp only [List.map_cons, List.map_nil, List.mem_cons, List.not_mem_nil, or_false,
      not_or]
    refine ⟨by simp, ?_, ?_, ?_, by simp⟩
    · exact (jstr_ne_of_ne _ _ hh1).symm
    · exact (jstr_ne_of_ne _ _ hh2).symm
    · exact (jstr_ne_of_ne _ _ hh3).symm
  · rw [hpv] at hp1 hp2 hp3 ⊢
    simp only [Option.getD_some, List.map_cons, List.map_nil, List.mem_cons,
      List.not_mem_nil, or_false, not_or]
    refine ⟨by simp, ?_, ?_, ?_, by simp⟩
    · exact (jstr_ne_of_ne _ _ hp1).symm
    · exact (jstr_ne_of_ne _ _ hp2).symm
    · exact (jstr_ne_of_ne _ _ hp3).symm
  · simp only [List.map_cons, List.map_nil, List.mem_cons, List.not_mem_nil, or_false,
      not_or]
    refine ⟨by simp, ?_, ?_⟩
    · exact (jstr_ne_of_ne _ _ hh1).symm
    · exact (jstr_ne_of_ne _ _ hh2).symm
  · rw [hpv] at hp1 hp2 ⊢
    simp only [Option.getD_some, List.map_cons, List.map_nil, List.mem_cons,
      List.not_mem_nil, or_false, not_or]
    refine ⟨by simp, ?_, ?_⟩
    · exact (jstr_ne_of_ne _ _ hp1).symm
    · exact (jstr_ne_of_ne _ _ hp2).symm

theorem register_response_public_fields_only_witness :
    respUser (registerRich dbEx 200 bodyNew []).1 =
      some [("id", .num dbEx.nextId), ("fullName", jstr bodyNew.fullName),
        ("email", jstr bodyNew.email), ("classLevel", jstr bodyNew.classLevel),
        ("registrationDate", .num 200)] ∧
    ("password_hash" ∉ ([("id", (.num dbEx.nextId : JAtom)), ("fullName", jstr bodyNew.fullName),
      ("email", jstr bodyNew.email), ("classLevel", jstr bodyNew.classLevel),
      ("registrationDate", .num 200)].map Prod.fst) ∧
     "password" ∉ ([("id", (.num dbEx.nextId : JAtom)), ("fullName", jstr bodyNew.fullName),
      ("email", jstr bodyNew.email), ("classLevel", jstr bodyNew.classLevel),
      ("registrationDate", .num 200)].map Prod.fst)) ∧
    (JAtom.str (bcrypt.hash (bodyNew.password.getD "") 10) ∉
      ([("id", (.num dbEx.nextId : JAtom)), ("fullName", jstr bodyNew.fullName),
        ("email", jstr bodyNew.email), ("classLevel", jstr bodyNew.classLevel),
        ("registrationDate", .num 200)].map Prod.snd)) ∧
    (JAtom.str (bodyNew.password.getD "") ∉
      ([("id", (.num dbEx.nextId : JAtom)), ("fullName", jstr bodyNew.fullName),
        ("email", jstr bodyNew.email), ("classLevel", jstr bodyNew.classLevel),
        ("registrationDate", .num 200)].map Prod.snd)) ∧
    respUser (registerMin dbEx 200 bodyNew []).1 =
      some [("id", .num dbEx.nextId), ("full_name", jstr bodyNew.fullName),
        ("email", jstr bodyNew.email)] ∧
    ("password_hash" ∉ ([("id", (.num dbEx.nextId : JAtom)), ("full_name", jstr bodyNew.fullName),
      ("email", jstr bodyNew.email)].map Prod.fst) ∧
     "password" ∉ ([("id", (.num dbEx.nextId : JAtom)), ("full_name", jstr bodyNew.fullName),
      ("email", jstr bodyNew.email)].map Prod.fst)) ∧
    (JAtom.str (bcrypt.hash (bodyNew.password.getD "") 10) ∉
      ([("id", (.num dbEx.nextId : JAtom)), ("full_name", jstr bodyNew.fullName),
        ("email", jstr bodyNew.email)].map Prod.snd)) ∧
    (JAtom.str (bodyNew.password.getD "") ∉
      ([("id", (.num dbEx.nextId : JAtom)), ("full_name", jstr bodyNew.fullName),
        ("email", jstr bodyNew.email)].map Prod.snd)) :=
  register_response_public_fields_only dbEx 200 bodyNew
    (by decide) (by decide) (by decide) (by decide) (by decide) (by decide)
    (by decide) (by decide) (by decide) (by decide) (by decide) (by decide)

/-- Claim C5: the profile endpoint answers 401 with the no-valid-token
error when the Authorization header is absent or does not start with
Bearer, under every fault schedule (so without touching the store); 401
with the invalid-or-expired error when token verification fails (malformed
token, bad signature or expiry), again under every fault schedule; and 404
when verification succeeds, the lookup runs fault-free, and no active user
carries the embedded identifier.  The store is never modified. -/
theorem profile_error_taxonomy (db : Db) (now : Nat) :
    (∀ faults, profileRich db now none faults = (respNoToken, db)) ∧
    (∀ faults raw t?, jsStartsWith raw "Bearer " = false →
      profileRich db now (some (raw, t?)) faults = (respNoToken, db)) ∧
    (∀ faults raw, jsStartsWith raw "Bearer " = true →
      profileRich db now (some (raw, none)) faults = (respInvalidToken, db)) ∧
    (∀ faults raw t e, jsStartsWith raw "Bearer " = true →
      jwt.verify t JWT_SECRET now = .error e →
      profileRich db now (some (raw, some t)) faults = (respInvalidToken, db)) ∧
    (∀ faults raw t p, jsStartsWith raw "Bearer " = true →
      jwt.verify t JWT_SECRET now = .ok p →
      qfail faults 0 = false →
      (db.users.filter (fun u => u.id == p.userId && u.is_active)).head? = none →
      profileRich db now (some (raw, some t)) faults = (respUserNotFound, db)) ∧
    respNoToken.status = 401 ∧ respInvalidToken.status = 401 ∧
    respUserNotFound.status = 404 := by
  refine ⟨fun faults => rfl, ?_, ?_, ?_, ?_, rfl, rfl, rfl⟩
  · intro faults raw t? hraw
    simp [profileRich, hraw]
  · intro faults raw hraw
    simp [profileRich, hraw]
  · intro faults raw t e hraw hver
    simp [profileRich, hraw, hver]
  · intro faults raw t p hraw hver hq hnone
    simp [profileRich, hraw, hver, hq, hnone]

theorem profile_error_taxonomy_witness :
    profileRich dbEx 100 none [true] = (respNoToken, dbEx) ∧
    profileRich dbEx 100 (some ("Token abc", some tokA)) [true] = (respNoToken, dbEx) ∧
    profileRich dbEx 100 (some ("Bearer abc", none)) [true] = (respInvalidToken, dbEx) ∧
    profileRich dbEx 100 (some ("Bearer abc", some tokBadSecret)) [true]
      = (respInvalidToken, dbEx) ∧
    profileRich dbEx 100 (some ("Bearer abc", some tokGhost)) []
      = (respUserNotFound, dbEx) := by
  have h := profile_error_taxonomy dbEx 100
  exact ⟨h.1 [true],
    h.2.1 [true] "Token abc" (some tokA) (by decide),
    h.2.2.1 [true] "Bearer abc" (by decide),
    h.2.2.2.1 [true] "Bearer abc" tokBadSecret .badSignature (by decide) (by rfl),
    h.2.2.2.2.1 [] "Bearer abc" tokGhost { userId := 99, email := none }
      (by decide) (by rfl) (by rfl) (by decide)⟩

/-- Claim C6, counterexample: with a valid token and a failing user lookup
(the store raises on the query after successful verification), the profile
handler answers 401 invalid-or-expired, not the claimed 500. -/
theorem profile_store_failure_counterexample :
    jwt.verify tokA JWT_SECRET 100 = .ok { userId := 1, email := some "a@x.com" } ∧
    qfail [true] 0 = true ∧
    profileRich dbEx 100 (some ("Bearer abc", some tokA)) [true]
      = (respInvalidToken, dbEx) ∧
    respInvalidToken.status = 401 ∧
    respInvalidToken.status ≠ 500 := by
  exact ⟨rfl, rfl, by decide, rfl, by decide⟩

/-- Claim C6, amended: whenever a store query raises — the first query of
any handler, or the second (the register INSERT after a clean existence
check, or the richer test-db schema check) — the register, login, courses,
test-db and admin handlers of all three variants answer HTTP 500 with an
error message; the profile handler is the exception: its shared catch
block answers 401 invalid-or-expired even when the failure is the user
lookup after successful token verification. -/
theorem store_failure_statuses
    (db : Db) (now : Nat) (b : ReqBody) (faults : List Bool) (raw : String)
    (t : Jwt) (p : JwtPayload)
    (hfn : falsy b.fullName = false) (hem : falsy b.email = false)
    (hph : falsy b.phone = false) (hcl : falsy b.classLevel = false)
    (hpw : falsy b.password = false)
    (hraw : jsStartsWith raw "Bearer " = true)
    (hver : jwt.verify t JWT_SECRET now = .ok p) :
    (qfail faults 0 = true →
      (registerRich db now b faults).1.status = 500 ∧
      (loginRich db now b faults).1.status = 500 ∧
      (coursesRich db faults).1.status = 500 ∧
      (testDbRich db now faults).1.status = 500 ∧
      (adminUsersRich db faults).1.status = 500 ∧
      (registerMid db now b faults).1.status = 500 ∧
      (loginMid db now b faults).1.status = 500 ∧
      (coursesMid db faults).1.status = 500 ∧
      (testDbMid db now faults).1.status = 500 ∧
      (registerMin db now b faults).1.status = 500 ∧
      (loginMin db now b faults).1.status = 500 ∧
      (coursesMin db faults).1.status = 500 ∧
      (profileRich db now (some (raw, some t)) faults).1 = respInvalidToken) ∧
    (qfail faults 0 = false → qfail faults 1 = true →
      db.users.filter (fun u => emailEq u b.email) = [] →
      (registerRich db now b faults).1.status = 500 ∧
      (registerMid db now b faults).1.status = 500 ∧
      (registerMin db now b faults).1.status = 500 ∧
      (testDbRich db now faults).1.status = 500) ∧
    respInvalidToken.status ≠ 500 := by
  obtain ⟨pw, hpv⟩ : ∃ s, b.password = some s := by
    cases hx : b.password
    · rw [hx] at hpw; simp [falsy] at hpw
    · exact ⟨_, rfl⟩
  refine ⟨?_, ?_, by decide⟩
  · intro hq
    refine ⟨?_, ?_, ?_, ?_, ?_, ?_, ?_, ?_, ?_, ?_, ?_, ?_, ?_⟩
    · simp [registerRich, hq, hfn, hem, hph, hcl, hpw]
    · simp [loginRich, hq, hem, hpw]
    · simp [coursesRich, hq]
    · simp [testDbRich, hq]
    · simp [adminUsersRich, hq]
    · simp [registerMid, hq]
    · simp [loginMid, hq]
    · simp [coursesMid, hq]
    · simp [testDbMid, hq]
    · simp [registerMin, hq]
    · simp [loginMin, hq]
    · simp [coursesMin, hq]
    · simp [profileRich, hraw, hver, hq]
  · intro hq0 hq1 hdup
    refine ⟨?_, ?_, ?_, ?_⟩
    · simp [registerRich, hq0, hq1, hdup, hfn, hem, hph, hcl, hpw]
    · simp [registerMid, hq0, hq1, hdup, hpv]
    · simp [registerMin, hq0, hq1, hdup, hpv]
    · simp [testDbRich, hq0, hq1]

theorem store_failure_statuses_witness :
    ((registerRich dbEx 100 bodyNew [true]).1.status = 500 ∧
     (loginRich dbEx 100 bodyNew [true]).1.status = 500 ∧
     (coursesRich dbEx [true]).1.status = 500 ∧
     (testDbRich dbEx 100 [true]).1.status = 500 ∧
     (adminUsersRich dbEx [true]).1.status = 500 ∧
     (registerMid dbEx 100 bodyNew [true]).1.status = 500 ∧
     (loginMid dbEx 100 bodyNew [true]).1.status = 500 ∧
     (coursesMid dbEx [true]).1.status = 500 ∧
     (testDbMid dbEx 100 [true]).1.status = 500 ∧
     (registerMin dbEx 100 bodyNew [true]).1.status = 500 ∧
     (loginMin dbEx 100 bodyNew [true]).1.status = 500 ∧
     (coursesMin dbEx [true]).1.status = 500 ∧
     (profileRich dbEx 100 (some ("Bearer abc", some tokA)) [true]).1 = respInvalidToken) ∧
    ((registerRich dbEx 100 bodyNew [false, true]).1.status = 500 ∧
     (registerMid dbEx 100 bodyNew [false, true]).1.status = 500 ∧
     (registerMin dbEx 100 bodyNew [false, true]).1.status = 500 ∧
     (testDbRich dbEx 100 [false, true]).1.status = 500) ∧
    respInvalidToken.status ≠ 500 := by
  have h1 := store_failure_statuses dbEx 100 bodyNew [true] "Bearer abc" tokA
    { userId := 1, email := some "a@x.com" }
    (by decide) (by decide) (by decide) (by decide) (by decide) (by decide) (by rfl)
  have h2 := store_failure_statuses dbEx 100 bodyNew [false, true] "Bearer abc" tokA
    { userId := 1, email := some "a@x.com" }
    (by decide) (by decide) (by decide) (by decide) (by decide) (by decide) (by rfl)
  exact ⟨h1.1 rfl, h2.2.1 rfl rfl (by decide), h1.2.2⟩

/-- Claim C7: on a fault-free store, the course listing of both variants
returns exactly the course rows whose active flag is true, ordered
ascending by identifier, with no further filtering or pagination, leaves
the store unchanged, and a second identical request returns the same
result. -/
theorem courses_listing_spec (db : Db) (faults : List Bool)
    (hq : qfail faults 0 = false) :
    coursesRich db faults =
      ({ status := 200,
         body := .json [("success", .atom (.bool true)),
           ("courses", .arrObj ((coursesQuery db).map courseToJ))] }, db) ∧
    coursesMin db faults =
      ({ status := 200,
         body := .json [("success", .atom (.bool true)),
           ("courses", .arrObj ((coursesQuery db).map courseToJ))] }, db) ∧
    (∀ c ∈ coursesQuery db, c.is_active = true) ∧
    List.Sorted courseLe (coursesQuery db) ∧
    (coursesQuery db).Perm (db.courses.filter (fun c => c.is_active)) ∧
    (coursesRich ((coursesRich db faults).2) faults).1 = (coursesRich db faults).1 ∧
    (coursesMin ((coursesMin db faults).2) faults).1 = (coursesMin db faults).1 := by
  refine ⟨by simp [coursesRich, hq], by simp [coursesMin, hq], ?_, ?_, ?_, ?_, ?_⟩
  · intro c hc
    have hperm := List.perm_insertionSort courseLe (db.courses.filter (fun c => c.is_active))
    have hmem : c ∈ db.courses.filter (fun c => c.is_active) := by
      rw [coursesQuery] at hc
      exact hperm.mem_iff.mp hc
    exact (List.mem_filter.mp hmem).2
  · exact List.sorted_insertionSort courseLe _
  · exact List.perm_insertionSort courseLe _
  · have hsnd : (coursesRich db faults).2 = db := by simp [coursesRich, hq]
    rw [hsnd]
  · have hsnd : (coursesMin db faults).2 = db := by simp [coursesMin, hq]
    rw [hsnd]

theorem courses_listing_spec_witness :
    coursesRich dbEx [] =
      ({ status := 200,
         body := .json [("success", .atom (.bool true)),
           ("courses", .arrObj ((coursesQuery dbEx).map courseToJ))] }, dbEx) ∧
    coursesMin dbEx [] =
      ({ status := 200,
         body := .json [("success", .atom (.bool true)),
           ("courses", .arrObj ((coursesQuery dbEx).map courseToJ))] }, dbEx) ∧
    (∀ c ∈ coursesQuery dbEx, c.is_active = true) ∧
    List.Sorted courseLe (coursesQuery dbEx) ∧
    (coursesQuery dbEx).Perm (dbEx.courses.filter (fun c => c.is_active)) ∧
    (coursesRich ((coursesRich dbEx []).2) []).1 = (coursesRich dbEx []).1 ∧
    (coursesMin ((coursesMin dbEx []).2) []).1 = (coursesMin dbEx []).1 :=
  courses_listing_spec dbEx [] (by decide)

/-- Claim C9, counterexample: an unmatched non-GET request in the richer
and middle variants, and an unmatched GET request in the minimal variant
(which has no catch-all), all get the Express default HTML 404 page, not
the JSON body listing the available routes the claim requires for every
unmatched request. -/
theorem unmatched_route_counterexample :
    (serverRich dbEx 0 reqPostNope []).1.status = 404 ∧
    (serverRich dbEx 0 reqPostNope []).1.body = .html "Cannot POST /nope" ∧
    (serverRich dbEx 0 reqPostNope []).1 ≠ catchAllRich "/nope" ∧
    (serverMid dbEx 0 reqPostNope []).1.body = .html "Cannot POST /nope" ∧
    (serverMid dbEx 0 reqPostNope []).1 ≠ catchAllMid ∧
    (serverMin dbEx 0 reqGetNope []).1.body = .html "Cannot GET /nope" := by
  refine ⟨by decide, by decide, by decide, by decide, by decide, by decide⟩

/-- Claim C9, amended: in the richer and middle variants, every GET
request whose path matches no registered endpoint hits the star catch-all
and receives 404 with a JSON body listing that variant's available routes
(seven in the richer variant, five in the middle one); every request
matching no route at all (non-GET in those variants, everything unmatched
in the minimal variant, which registers no catch-all) receives the
Express default HTML 404 page instead. -/
theorem unmatched_route_responses
    (db : Db) (now : Nat) (req : Request) (faults : List Bool) :
    (req.method = .GET →
      req.path ∉ (["/health", "/api/test-db", "/api/courses",
        "/api/user/profile", "/api/admin/users"] : List String) →
      serverRich db now req faults = (catchAllRich req.path, db) ∧
      (catchAllRich req.path).status = 404 ∧
      respField (catchAllRich req.path) "availableRoutes" =
        some (.arrStr ["GET /health", "GET /api/test-db", "POST /api/auth/register",
          "POST /api/auth/login", "GET /api/courses", "GET /api/user/profile",
          "GET /api/admin/users"])) ∧
    (dispatchRich req.method req.path = none →
      serverRich db now req faults = (expressDefault404 req.method req.path, db) ∧
      (expressDefault404 req.method req.path).body =
        .html ("Cannot " ++ req.method.toStr ++ " " ++ req.path)) ∧
    (req.method = .GET →
      req.path ∉ (["/health", "/api/test-db", "/api/courses"] : List String) →
      serverMid db now req faults = (catchAllMid, db) ∧
      catchAllMid.status = 404 ∧
      respField catchAllMid "availableRoutes" =
        some (.arrStr ["GET /health", "GET /api/test-db", "POST /api/auth/register",
          "POST /api/auth/login", "GET /api/courses"])) ∧
    (dispatchMid req.method req.path = none →
      serverMid db now req faults = (expressDefault404 req.method req.path, db)) ∧
    (dispatchMin req.method req.path = none →
      serverMin db now req faults = (expressDefault404 req.method req.path, db)) := by
  refine ⟨?_, ?_, ?_, ?_, ?_⟩
  · intro hm hp
    simp only [List.mem_cons, List.not_mem_nil, or_false, not_or] at hp
    obtain ⟨h1, h2, h3, h4, h5⟩ := hp
    have hdisp : dispatchRich req.method req.path = some .catchAll := by
      simp [dispatchRich, hm, h1, h2, h3, h4, h5]
    refine ⟨?_, rfl, rfl⟩
    simp [serverRich, hdisp]
  · intro hdisp
    refine ⟨?_, rfl⟩
    simp [serverRich, hdisp]
  · intro hm hp
    simp only [List.mem_cons, List.not_mem_nil, or_false, not_or] at hp
    obtain ⟨h1, h2, h3⟩ := hp
    have hdisp : dispatchMid req.method req.path = some .catchAll := by
      simp [dispatchMid, hm, h1, h2, h3]
    refine ⟨?_, rfl, rfl⟩
    simp [serverMid, hdisp]
  · intro hdisp
    simp [serverMid, hdisp]
  · intro hdisp
    simp [serverMin, hdisp]

theorem unmatched_route_responses_witness :
    serverRich dbEx 0 reqGetNope [] = (catchAllRich reqGetNope.path, dbEx) ∧
    serverRich dbEx 0 reqPostNope []
      = (expressDefault404 reqPostNope.method reqPostNope.path, dbEx) ∧
    serverMid dbEx 0 reqGetNope [] = (catchAllMid, dbEx) ∧
    serverMid dbEx 0 reqPostNope []
      = (expressDefault404 reqPostNope.method reqPostNope.path, dbEx) ∧
    serverMin dbEx 0 reqGetNope []
      = (expressDefault404 reqGetNope.method reqGetNope.path, dbEx) := by
  have h1 := unmatched_route_responses dbEx 0 reqGetNope []
  have h2 := unmatched_route_responses dbEx 0 reqPostNope []
  exact ⟨(h1.1 (by decide) (by decide)).1, (h2.2.1 (by decide)).1,
    (h1.2.2.1 (by decide) (by decide)).1, h2.2.2.2.1 (by decide),
    h1.2.2.2.2 (by decide)⟩

/-- Claim C8, counterexample: a successful registration in the minimal
variant inserts a row whose active flag, trial flag and registration
timestamp come from the store column defaults — here active=false,
trial=true, timestamp NULL — refuting the claim for "every variant". -/
theorem register_min_defaults_counterexample :
    (registerMin dbEx 200 bodyNew []).1.status = 200 ∧
    (registerMin dbEx 200 bodyNew []).2.users =
      dbEx.users ++ [newRowMin dbEx bodyNew "pw2"] ∧
    (newRowMin dbEx bodyNew "pw2").is_active = false ∧
    (newRowMin dbEx bodyNew "pw2").trial_used = true ∧
    (newRowMin dbEx bodyNew "pw2").registration_date = none := by
  refine ⟨by decide, by decide, by decide, by decide, by decide⟩

/-- Claim C8, amended: in the richer variant the inserted user row has
active=true, trial-used=false and the server-assigned timestamp, and in
both variants the stored password is the bcrypt hash of the plaintext with
work factor 10 and never the plaintext itself; the minimal variant's
insert names only the five provided columns, so its active flag, trial
flag and timestamp take the store column defaults. -/
theorem register_inserted_row_fields
    (db : Db) (now : Nat) (b : ReqBody) (p : String)
    (hfn : falsy b.fullName = false) (hem : falsy b.email = false)
    (hph : falsy b.phone = false) (hcl : falsy b.classLevel = false)
    (hpw : falsy b.password = false)
    (hdup : db.users.filter (fun u => emailEq u b.email) = [])
    (hpv : b.password = some p) :
    (registerRich db now b []).2.users = db.users ++ [newRowRich db now b] ∧
    (newRowRich db now b).is_active = true ∧
    (newRowRich db now b).trial_used = false ∧
    (newRowRich db now b).registration_date = some now ∧
    (newRowRich db now b).password_hash = bcrypt.hash p 10 ∧
    (registerMin db now b []).2.users = db.users ++ [newRowMin db b p] ∧
    (newRowMin db b p).password_hash = bcrypt.hash p 10 ∧
    (newRowMin db b p).is_active = db.defaults.is_active ∧
    (newRowMin db b p).trial_used = db.defaults.trial_used ∧
    (newRowMin db b p).registration_date = db.defaults.registration_date ∧
    bcrypt.hash p 10 ≠ p := by
  have hreg := registerRich_success db now b hfn hem hph hcl hpw hdup
  have hmin := registerMin_success db now b p hdup hpv
  refine ⟨by rw [hreg], rfl, rfl, rfl, ?_, by rw [hmin], rfl, rfl, rfl, rfl,
    bcrypt_hash_ne_plaintext p 10⟩
  simp [newRowRich, hpv]

theorem register_inserted_row_fields_witness :
    (registerRich dbEx 200 bodyNew []).2.users = dbEx.users ++ [newRowRich dbEx 200 bodyNew] ∧
    (newRowRich dbEx 200 bodyNew).is_active = true ∧
    (newRowRich dbEx 200 bodyNew).trial_used = false ∧
    (newRowRich dbEx 200 bodyNew).registration_date = some 200 ∧
    (newRowRich dbEx 200 bodyNew).password_hash = bcrypt.hash "pw2" 10 ∧
    (registerMin dbEx 200 bodyNew []).2.users = dbEx.users ++ [newRowMin dbEx bodyNew "pw2"] ∧
    (newRowMin dbEx bodyNew "pw2").password_hash = bcrypt.hash "pw2" 10 ∧
    (newRowMin dbEx bodyNew "pw2").is_active = dbEx.defaults.is_active ∧
    (newRowMin dbEx bodyNew "pw2").trial_used = dbEx.defaults.trial_used ∧
    (newRowMin dbEx bodyNew "pw2").registration_date = dbEx.defaults.registration_date ∧
    bcrypt.hash "pw2" 10 ≠ "pw2" :=
  register_inserted_row_fields dbEx 200 bodyNew "pw2"
    (by decide) (by decide) (by decide) (by decide) (by decide) (by decide) (by decide)

end MarineMentors
